import Mathlib

/-!
Shallow embedding of the `panafit` web service (`src/main.rs`) and proofs
about its upload pipeline.

The program is a thin HTTP service: the `upload` handler receives a
multipart upload, writes the uploaded bytes to a file named after the
client-supplied file name, runs barcode detection on that file
(`rxing::helpers::detect_in_file`), looks the decoded code up in the
OpenFoodFacts product database, extracts a handful of JSON fields,
interpolates them into a fixed HTML fragment, deletes the file, and
returns the fragment.

Modelling decisions:
* The external collaborators (barcode decoder, OpenFoodFacts client,
  multipart parser) are opaque per the spec; they appear as oracle
  functions in an `Env` record.  `detect` consumes the *bytes* of the
  file at the path handed to `detect_in_file`.
* The filesystem is a map from path to file contents.  Whether
  `File::create`/`fs::write` succeeds on a given path is an environment
  fact (`Env.validPath`); on Linux, creating a file with an empty path
  fails, which concrete environments below reflect.
* `serde_json::Value` is modelled by the mutual inductive `Json`;
  JSON numbers are modelled as integers (no claim depends on float
  formatting).  Indexing with `value[key]` yields `Null` for a missing
  key or a non-object, exactly as `serde_json`'s `Index` impl does.
* Rust panics (every `.unwrap()` on an `Err`/`None`) are an explicit
  outcome; a panic inside the `spawn_blocking` closure surfaces as a
  `JoinError`, which the handler's `.await.unwrap()` turns into a panic
  of the handler itself, so both are one `panicked` outcome.
* Each run also produces a trace of the externally visible steps, in
  the order the handler performs them.
-/

set_option autoImplicit false
set_option maxRecDepth 100000

namespace Panafit

mutual

/-- Mutual model of `serde_json::Value` (numbers as integers). -/
inductive Json where
  | null : Json
  | jbool (b : Bool) : Json
  | num (n : Int) : Json
  | str (s : String) : Json
  | arr (xs : JsonArr) : Json
  | obj (kvs : JsonObj) : Json

/-- Model of a `serde_json` array of values. -/
inductive JsonArr where
  | nil : JsonArr
  | cons (hd : Json) (tl : JsonArr) : JsonArr

/-- Model of a `serde_json` object: an ordered key/value list (keys unique,
coming from a `HashMap`). -/
inductive JsonObj where
  | nil : JsonObj
  | cons (key : String) (val : Json) (tl : JsonObj) : JsonObj

end

/-- Lower-case hex digit, as used by `serde_json` for `\u00XX` escapes. -/
def hexDigit (n : Nat) : Char :=
  if n < 10 then Char.ofNat (48 + n) else Char.ofNat (97 + (n - 10))

/-- How `serde_json` escapes one character inside a JSON string literal. -/
def escapeChar (c : Char) : String :=
  if c = '"' then "\\\""
  else if c = '\\' then "\\\\"
  else if c.toNat = 8 then "\\b"
  else if c.toNat = 9 then "\\t"
  else if c.toNat = 10 then "\\n"
  else if c.toNat = 12 then "\\f"
  else if c.toNat = 13 then "\\r"
  else if c.toNat < 32 then
    "\\u00" ++ String.mk [hexDigit (c.toNat / 16), hexDigit (c.toNat % 16)]
  else String.singleton c

/-- Escape a whole string for inclusion in a JSON document. -/
def escapeString (s : String) : String :=
  String.join (s.toList.map escapeChar)

mutual

/-- Compact serialization of a `Json` value, as produced by
`serde_json::Value`'s `Display` impl (used both by `format!`
interpolation and by `result_json.to_string()`). -/
def Json.display : Json → String
  | .null => "null"
  | .jbool true => "true"
  | .jbool false => "false"
  | .num n => toString n
  | .str s => "\"" ++ escapeString s ++ "\""
  | .arr xs => "[" ++ xs.display ++ "]"
  | .obj kvs => "\x7b" ++ kvs.display ++ "\x7d"
termination_by structural j => j

/-- Comma-separated serialization of the elements of a JSON array. -/
def JsonArr.display : JsonArr → String
  | .nil => ""
  | .cons x tl =>
      x.display ++ (match tl with | .nil => "" | .cons _ _ => ",") ++ tl.display
termination_by structural xs => xs

/-- Comma-separated serialization of the entries of a JSON object. -/
def JsonObj.display : JsonObj → String
  | .nil => ""
  | .cons k v tl =>
      "\"" ++ escapeString k ++ "\":" ++ v.display
        ++ (match tl with | .nil => "" | .cons _ _ _ => ",") ++ tl.display
termination_by structural kvs => kvs

end

/-- First value bound to `k` in an object, `Json.null` when absent. -/
def JsonObj.find : JsonObj → String → Json
  | .nil, _ => .null
  | .cons key v tl, k => if key = k then v else tl.find k

/-- Model of `serde_json`'s `value[key]` indexing: member lookup on an
object, `Null` on a missing key or any non-object (including `Null`). -/
def Json.idx : Json → String → Json
  | .obj kvs, k => kvs.find k
  | _, _ => .null

/-- Iterated `value[k1][k2]…` indexing along a path of keys. -/
def Json.atPath (j : Json) (p : List String) : Json :=
  p.foldl Json.idx j

/-- Contents of a file on disk: raw bytes (the uploaded image) or text
(the serialized JSON written to `res.json`). -/
inductive FileData where
  | bytes (bs : List Nat) : FileData
  | text (s : String) : FileData
  deriving DecidableEq

/-- The filesystem: a map from path to contents. -/
def FS := String → Option FileData

/-- The empty filesystem. -/
def fsEmpty : FS := fun _ => none

/-- Create or overwrite the file at `name`. -/
def fsSet (fs : FS) (name : String) (d : FileData) : FS :=
  fun k => if k = name then some d else fs k

/-- Delete the file at `name`. -/
def fsRemove (fs : FS) (name : String) : FS :=
  fun k => if k = name then none else fs k

/-- The opaque external collaborators of the service, per the spec:
barcode detection, the OpenFoodFacts client, and OS-level filesystem
success/failure. -/
structure Env where
  /-- Whether `off::v2().build()` succeeds. -/
  buildOk : Bool
  /-- `rxing::helpers::detect_in_file` on the bytes of the given file:
  the decoded barcode text, or a detection failure. -/
  detect : List Nat → Except Unit String
  /-- `client.product(code, None)`: an opaque HTTP response (a token),
  or a lookup failure. -/
  lookup : String → Except Unit Nat
  /-- `response.json::<HashMap<String, Value>>()`: the decoded JSON
  object entries, or a decoding failure. -/
  respJson : Nat → Except Unit JsonObj
  /-- Whether the OS lets `File::create`/`fs::write` create a file at
  this path (an empty path fails on Linux). -/
  validPath : String → Bool

/-- One multipart field as exposed by `axum::extract::Multipart`:
`file_name()` and `content_type()` are `Option`s, `bytes()` gives the
field data. -/
structure Field where
  file_name : Option String
  content_type : Option String
  data : List Nat
  deriving DecidableEq

/-- The externally visible steps of one request, in execution order. -/
inductive Event where
  | createFile (name : String) : Event
  | writeFile (name : String) (data : List Nat) : Event
  | detectInFile (path : String) : Event
  | productLookup (code : String) : Event
  | decodeJson : Event
  | writeResJson : Event
  | extractFields : Event
  | formatHtml : Event
  | removeFile (name : String) : Event
  deriving DecidableEq

/-- Result of `create_nutrional_facts_file`: `Ok(html)`, an
`anyhow::Error` propagated by `?`, or a panic (`.unwrap()` on the
product lookup). -/
inductive CnffResult where
  | ok (html : String) : CnffResult
  | err : CnffResult
  | panicked : CnffResult
  deriving DecidableEq

/-- Result of the upload handler: an `Html<String>` response, or a
panic that aborts the request with no response. -/
inductive UploadOutcome where
  | response (html : String) : UploadOutcome
  | panicked : UploadOutcome
  deriving DecidableEq

/-- Result of the `while let Some(field) = multipart.next_field()` loop
in `upload`: fall through with the accumulated `file_name`/`file_data`,
return early on a non-image field, or panic on a field with no file
name or no content type. -/
inductive LoopResult where
  | done (file_name : String) (file_data : List Nat) : LoopResult
  | earlyReturn : LoopResult
  | panicked : LoopResult
  deriving DecidableEq

/-- The JSON paths of `product.selected_images.front.display.en`,
`product.serving_size` and the four `product.nutriments` entries read
by `create_nutrional_facts_file` (lines 25–30 of `main.rs`). -/
def nutritionPaths : List (List String) :=
  [["product", "selected_images", "front", "display", "en"],
   ["product", "serving_size"],
   ["product", "nutriments", "energy-kcal_serving"],
   ["product", "nutriments", "carbohydrates_serving"],
   ["product", "nutriments", "proteins_serving"],
   ["product", "nutriments", "fat_serving"]]

/-- The fixed HTML template of the `format!` call at lines 31–39 of
`main.rs`, with the six interpolation slots as arguments. -/
def nutritionTemplate (selected_image serving_size calories_per carbs_per protein_per fats_per : String) : String :=
  "<img src=" ++ selected_image ++ " width=25% height=auto>\n         <h1><b>Tamaño de serving</b>: "
    ++ serving_size ++ "<br>\n    <b>Valores nutricionales (por serving)</b>:<br>\n    <b>Calorías (kcal)</b>: "
    ++ calories_per ++ "<br>\n    <b>Carbohidratos</b>: "
    ++ carbs_per ++ "g<br>\n    <b>Proteína</b>: "
    ++ protein_per ++ "<br>\n    <b>Grasa</b>: "
    ++ fats_per ++ "g</h1>"

/-- The HTML fragment the pipeline renders from a product JSON document:
the fixed template with the displays of the six `nutritionPaths`
extractions interpolated. -/
def renderNutritionHtml (j : Json) : String :=
  nutritionTemplate
    ((j.atPath ["product", "selected_images", "front", "display", "en"]).display)
    ((j.atPath ["product", "serving_size"]).display)
    ((j.atPath ["product", "nutriments", "energy-kcal_serving"]).display)
    ((j.atPath ["product", "nutriments", "carbohydrates_serving"]).display)
    ((j.atPath ["product", "nutriments", "proteins_serving"]).display)
    ((j.atPath ["product", "nutriments", "fat_serving"]).display)

/-- The generic error message `unwrap_or_else` substitutes in `upload`
when `create_nutrional_facts_file` returns an `Err`. -/
def genericErrorMsg : String :=
  "could not read file, make sure it is a valid image!"

/-- The early-return fragment for a field whose content type is not
`image/*`. -/
def imagesOnlyMsg : String :=
  "<p>Please upload only images.</p>"

/-- Embedding of `create_nutrional_facts_file` (lines 17–40 of
`main.rs`).  Returns the trace of steps performed, the filesystem after
the call, and the result.  Step by step:
`off::v2().build()?` (fails ⇒ `Err`); `detect_in_file(file_name)?`
(reads the file at `file_name`, fails ⇒ `Err`);
`client.product(code, None).unwrap()` (fails ⇒ panic);
`response.json::<HashMap<String, Value>>()?` (fails ⇒ `Err`);
`fs::write("res.json", result_json.to_string())?` (fails ⇒ `Err`);
then the six field extractions and the `format!` call. -/
def create_nutrional_facts_file (env : Env) (fs : FS) (file_name : String) :
    List Event × FS × CnffResult :=
  if env.buildOk = false then ([], fs, .err)
  else
    let detected : Except Unit String :=
      match fs file_name with
      | some (.bytes b) => env.detect b
      | _ => .error ()
    match detected with
    | .error _ => ([.detectInFile file_name], fs, .err)
    | .ok code =>
      match env.lookup code with
      | .error _ => ([.detectInFile file_name, .productLookup code], fs, .panicked)
      | .ok resp =>
        match env.respJson resp with
        | .error _ =>
            ([.detectInFile file_name, .productLookup code, .decodeJson], fs, .err)
        | .ok entries =>
          let result_json : Json := .obj entries
          if env.validPath "res.json" = false then
            ([.detectInFile file_name, .productLookup code, .decodeJson, .writeResJson],
             fs, .err)
          else
            let fs1 := fsSet fs "res.json" (.text result_json.display)
            let selected_image :=
              ((((result_json.idx "product").idx "selected_images").idx "front").idx "display").idx "en"
            let serving_size := (result_json.idx "product").idx "serving_size"
            let calories_per :=
              ((result_json.idx "product").idx "nutriments").idx "energy-kcal_serving"
            let carbs_per :=
              ((result_json.idx "product").idx "nutriments").idx "carbohydrates_serving"
            let protein_per :=
              ((result_json.idx "product").idx "nutriments").idx "proteins_serving"
            let fats_per :=
              ((result_json.idx "product").idx "nutriments").idx "fat_serving"
            ([.detectInFile file_name, .productLookup code, .decodeJson, .writeResJson,
              .extractFields, .formatHtml],
             fs1,
             .ok (nutritionTemplate selected_image.display serving_size.display
                    calories_per.display carbs_per.display protein_per.display
                    fats_per.display))

/-- Model of Rust's `str::starts_with` with a string pattern: the
pattern's characters are a prefix of the string's characters. -/
def strStartsWith (s p : String) : Bool :=
  p.data.isPrefixOf s.data

/-- Embedding of the `while let Some(field) = multipart.next_field()`
loop of `upload` (lines 120–135 of `main.rs`).  For each field in order:
`field.file_name().unwrap()` (panic on `None`),
`field.content_type().unwrap()` (panic on `None`), read the bytes, then
return early unless the content type starts with `image/`; otherwise the
field's name and data overwrite the accumulators. -/
def uploadLoop : List Field → String → List Nat → LoopResult
  | [], file_name, file_data => .done file_name file_data
  | f :: rest, _, _ =>
    match f.file_name with
    | none => .panicked
    | some fname =>
      match f.content_type with
      | none => .panicked
      | some ctype =>
        if strStartsWith ctype "image/" = false then .earlyReturn
        else uploadLoop rest fname f.data

/-- Model of `create_nutrional_facts_file(..).unwrap_or_else(..)` inside
`spawn_blocking`: an `Err` becomes the generic message, a panic becomes
a `JoinError` that the handler's `.await.unwrap()` re-panics on. -/
def unwrapOrElse : CnffResult → Option String
  | .ok s => some s
  | .err => some genericErrorMsg
  | .panicked => none

/-- Embedding of the `upload` handler (lines 117–157 of `main.rs`):
run the field loop (early return / panic propagate), then
`File::create(file_name).unwrap()` (panic when the OS rejects the
path), `write_all(&file_data).unwrap()`, the blocking
`create_nutrional_facts_file` call with its `unwrap_or_else`, then
`remove_file(file_name).unwrap()` (panic when the file is absent), and
finally `Html(response)`. -/
def upload (env : Env) (fs : FS) (fields : List Field) :
    List Event × FS × UploadOutcome :=
  match uploadLoop fields "" [] with
  | .panicked => ([], fs, .panicked)
  | .earlyReturn => ([], fs, .response imagesOnlyMsg)
  | .done file_name file_data =>
    if env.validPath file_name = false then
      ([.createFile file_name], fs, .panicked)
    else
      let fs2 := fsSet (fsSet fs file_name (.bytes [])) file_name (.bytes file_data)
      let r := create_nutrional_facts_file env fs2 file_name
      let evs0 : List Event := [.createFile file_name, .writeFile file_name file_data]
      match unwrapOrElse r.2.2 with
      | none => (evs0 ++ r.1, r.2.1, .panicked)
      | some response =>
        match r.2.1 file_name with
        | none => (evs0 ++ r.1, r.2.1, .panicked)
        | some _ =>
            (evs0 ++ r.1 ++ [.removeFile file_name],
             fsRemove r.2.1 file_name, .response response)

/-- A multipart field the loop accepts and accumulates: it has a file
name and a content type, and the content type starts with `image/`. -/
def isImageField (f : Field) : Bool :=
  match f.file_name, f.content_type with
  | some _, some c => strStartsWith c "image/"
  | _, _ => false

/-- A multipart field whose `file_name()` and `content_type()` are both
present, so neither `.unwrap()` in the loop panics on it. -/
def hasNameAndType (f : Field) : Bool :=
  f.file_name.isSome && f.content_type.isSome

/-- A multipart field that carries a content type not starting with
`image/` (the loop's early-return trigger). -/
def nonImageField (f : Field) : Bool :=
  match f.content_type with
  | some c => !(strStartsWith c "image/")
  | none => false

/-- Concrete accepted upload field (one PNG byte). -/
def fldPng : Field := ⟨some "a.png", some "image/png", [1]⟩

/-- Concrete non-image field. -/
def fldText : Field := ⟨some "b.txt", some "text/plain", [2]⟩

/-- Concrete field with a file name but no content type. -/
def fldNoCt : Field := ⟨some "a.png", none, [1]⟩

/-- Second concrete accepted upload field, with a different name and
different bytes than `fldPng`. -/
def fldPng2 : Field := ⟨some "b.png", some "image/jpeg", [9, 9]⟩

/-- Concrete environment in which the whole pipeline succeeds on
`fldPng`: the barcode of `[1]` decodes to `"750"`, the lookup of
`"750"` answers with a response whose JSON decodes to the empty object,
and every nonempty path is creatable. -/
def envOkW : Env :=
  { buildOk := true
    detect := fun b => if b = [1] then .ok "750" else .error ()
    lookup := fun c => if c = "750" then .ok 0 else .error ()
    respJson := fun _ => .ok .nil
    validPath := fun s => !(s == "") }

/-- Concrete environment in which barcode detection succeeds but the
product-database lookup fails. -/
def envLookupFail : Env :=
  { envOkW with lookup := fun _ => .error () }

/-- Concrete environment in which barcode detection fails. -/
def envDetectFail : Env :=
  { envOkW with detect := fun _ => .error () }

/-- Concrete environment in which detection and lookup succeed but the
response body fails to decode as JSON. -/
def envJsonFail : Env :=
  { envOkW with respJson := fun _ => .error () }

/-! ## Helper lemmas -/

lemma fsSet_self (fs : FS) (n : String) (d : FileData) : fsSet fs n d n = some d := by
  simp [fsSet]

lemma fsSet_other (fs : FS) (n k : String) (d : FileData) (h : k ≠ n) :
    fsSet fs n d k = fs k := by
  simp [fsSet, h]

lemma fsRemove_self (fs : FS) (n : String) : fsRemove fs n n = none := by
  simp [fsRemove]

lemma fsRemove_other (fs : FS) (n k : String) (h : k ≠ n) : fsRemove fs n k = fs k := by
  simp [fsRemove, h]

lemma isImageField_spec (f : Field) (h : isImageField f = true) :
    ∃ nm c, f.file_name = some nm ∧ f.content_type = some c ∧
      strStartsWith c "image/" = true := by
  rcases f with ⟨fn, ct, d⟩
  rcases fn with _ | nm <;> rcases ct with _ | c <;> simp_all [isImageField]

/-- The field loop on a list of accepted image fields falls through with
the name and data of the last field. -/
lemma uploadLoop_all_images (gs : List Field) (g : Field) (a : String) (b : List Nat)
    (nm : String) (hall : ∀ x ∈ gs ++ [g], isImageField x = true)
    (hg : g.file_name = some nm) :
    uploadLoop (gs ++ [g]) a b = .done nm g.data := by
  induction gs generalizing a b with
  | nil =>
      obtain ⟨nm', c, hfn, hct, hsw⟩ := isImageField_spec g (hall g (by simp))
      rw [hfn] at hg
      cases hg
      simp [uploadLoop, hfn, hct, hsw]
  | cons x gs ih =>
      obtain ⟨nx, cx, hfn, hct, hsw⟩ := isImageField_spec x (hall x (by simp))
      simp only [List.cons_append, uploadLoop, hfn, hct, hsw]
      exact ih nx x.data fun y hy => hall y (by simp [hy])

/-- The field loop returns early with the images-only message as soon as
it reaches a field whose content type is not `image/*`, provided every
field has a file name and a content type. -/
lemma uploadLoop_early : ∀ (fields : List Field) (a : String) (b : List Nat),
    (∀ x ∈ fields, hasNameAndType x = true) →
    (∃ x ∈ fields, nonImageField x = true) →
    uploadLoop fields a b = .earlyReturn := by
  intro fields
  induction fields with
  | nil => intro a b _ hbad; simp at hbad
  | cons x fields ih =>
      intro a b hwf hbad
      have hx := hwf x (by simp)
      rw [hasNameAndType, Bool.and_eq_true] at hx
      obtain ⟨nm, hfn⟩ := Option.isSome_iff_exists.mp hx.1
      obtain ⟨c, hct⟩ := Option.isSome_iff_exists.mp hx.2
      by_cases hc : strStartsWith c "image/" = true
      · have hbad' : ∃ y ∈ fields, nonImageField y = true := by
          rcases hbad with ⟨y, hy, hny⟩
          rcases List.mem_cons.mp hy with rfl | hy'
          · simp [nonImageField, hct, hc] at hny
          · exact ⟨y, hy', hny⟩
        simp only [uploadLoop, hfn, hct, hc]
        simp only [Bool.true_eq_false, if_false]
        exact ih nm x.data (fun y hy => hwf y (by simp [hy])) hbad'
      · have hc' : strStartsWith c "image/" = false := by simpa using hc
        simp [uploadLoop, hfn, hct, hc']

/-- On the all-steps-succeed path, one `upload` run is exactly: create
the temp file, write the uploaded bytes, detect the barcode, look up
the decoded code, decode the response JSON, write `res.json`, extract
the six fields, format the HTML, and remove the temp file. -/
lemma upload_success_run (env : Env) (fs : FS) (fields : List Field)
    (n : String) (d : List Nat) (code : String) (resp : Nat) (entries : JsonObj)
    (hloop : uploadLoop fields "" [] = .done n d)
    (hvp : env.validPath n = true)
    (hbuild : env.buildOk = true)
    (hdet : env.detect d = .ok code)
    (hlook : env.lookup code = .ok resp)
    (hjson : env.respJson resp = .ok entries)
    (hres : env.validPath "res.json" = true) :
    upload env fs fields =
      ([.createFile n, .writeFile n d, .detectInFile n, .productLookup code,
        .decodeJson, .writeResJson, .extractFields, .formatHtml, .removeFile n],
       fsRemove (fsSet (fsSet (fsSet fs n (.bytes [])) n (.bytes d)) "res.json"
         (.text (Json.obj entries).display)) n,
       .response (renderNutritionHtml (Json.obj entries))) := by
  have hfs2 : (fsSet (fsSet fs n (.bytes [])) n (.bytes d)) n = some (.bytes d) :=
    fsSet_self _ _ _
  rcases eq_or_ne n "res.json" with hn | hn
  · subst hn
    simp [upload, create_nutrional_facts_file, hloop, hvp, hbuild, hdet, hlook, hjson,
      hres, hfs2, fsSet_self, unwrapOrElse, renderNutritionHtml, Json.atPath]
  · simp [upload, create_nutrional_facts_file, hloop, hvp, hbuild, hdet, hlook, hjson,
      hres, hfs2, fsSet_self, fsSet_other _ _ _ _ hn, unwrapOrElse,
      renderNutritionHtml, Json.atPath]

/-- When barcode detection on the temp file fails, the run ends with
the file removed and the generic error message as the response. -/
lemma upload_detect_fail_run (env : Env) (fs : FS) (fields : List Field)
    (n : String) (d : List Nat)
    (hloop : uploadLoop fields "" [] = .done n d)
    (hvp : env.validPath n = true)
    (hbuild : env.buildOk = true)
    (hdet : env.detect d = .error ()) :
    upload env fs fields =
      ([.createFile n, .writeFile n d, .detectInFile n, .removeFile n],
       fsRemove (fsSet (fsSet fs n (.bytes [])) n (.bytes d)) n,
       .response genericErrorMsg) := by
  have hfs2 : (fsSet (fsSet fs n (.bytes [])) n (.bytes d)) n = some (.bytes d) :=
    fsSet_self _ _ _
  simp [upload, create_nutrional_facts_file, hloop, hvp, hbuild, hdet, hfs2,
    unwrapOrElse]

/-- When the response body fails to decode as JSON, the run ends with
the file removed and the generic error message as the response. -/
lemma upload_json_fail_run (env : Env) (fs : FS) (fields : List Field)
    (n : String) (d : List Nat) (code : String) (resp : Nat)
    (hloop : uploadLoop fields "" [] = .done n d)
    (hvp : env.validPath n = true)
    (hbuild : env.buildOk = true)
    (hdet : env.detect d = .ok code)
    (hlook : env.lookup code = .ok resp)
    (hjson : env.respJson resp = .error ()) :
    upload env fs fields =
      ([.createFile n, .writeFile n d, .detectInFile n, .productLookup code,
        .decodeJson, .removeFile n],
       fsRemove (fsSet (fsSet fs n (.bytes [])) n (.bytes d)) n,
       .response genericErrorMsg) := by
  have hfs2 : (fsSet (fsSet fs n (.bytes [])) n (.bytes d)) n = some (.bytes d) :=
    fsSet_self _ _ _
  simp [upload, create_nutrional_facts_file, hloop, hvp, hbuild, hdet, hlook, hjson,
    hfs2, unwrapOrElse]

/-- When the product-database lookup fails, the `.unwrap()` panics
inside `spawn_blocking`, the handler re-panics on the `JoinError`, and
the temp file is left on disk. -/
lemma upload_lookup_fail_run (env : Env) (fs : FS) (fields : List Field)
    (n : String) (d : List Nat) (code : String)
    (hloop : uploadLoop fields "" [] = .done n d)
    (hvp : env.validPath n = true)
    (hbuild : env.buildOk = true)
    (hdet : env.detect d = .ok code)
    (hlook : env.lookup code = .error ()) :
    upload env fs fields =
      ([.createFile n, .writeFile n d, .detectInFile n, .productLookup code],
       fsSet (fsSet fs n (.bytes [])) n (.bytes d),
       .panicked) := by
  have hfs2 : (fsSet (fsSet fs n (.bytes [])) n (.bytes d)) n = some (.bytes d) :=
    fsSet_self _ _ _
  simp [upload, create_nutrional_facts_file, hloop, hvp, hbuild, hdet, hlook, hfs2,
    unwrapOrElse]

/-- `create_nutrional_facts_file` never emits a temp-file write: the
only write of uploaded bytes is the one the handler performs. -/
lemma cnff_no_writeFile (env : Env) (fs : FS) (n m : String) (bs : List Nat) :
    Event.writeFile m bs ∉ (create_nutrional_facts_file env fs n).1 := by
  simp only [create_nutrional_facts_file]
  repeat' split
  all_goals simp

/-! ## Claim theorems -/

/-- C1: on every upload request whose pipeline runs to completion
without panicking (all pipeline steps succeed), the handler performs
its steps in order — persist the uploaded bytes to the temp file,
detect the barcode in that file, look up the decoded code in the
product database, decode the response JSON, extract the JSON fields,
format the HTML fragment — and deletes the persisted file before
returning the response string. -/
theorem upload_pipeline_order (env : Env) (fs : FS) (fields : List Field)
    (n : String) (d : List Nat) (code : String) (resp : Nat) (entries : JsonObj)
    (hloop : uploadLoop fields "" [] = .done n d)
    (hvp : env.validPath n = true)
    (hbuild : env.buildOk = true)
    (hdet : env.detect d = .ok code)
    (hlook : env.lookup code = .ok resp)
    (hjson : env.respJson resp = .ok entries)
    (hres : env.validPath "res.json" = true) :
    upload env fs fields =
      ([.createFile n, .writeFile n d, .detectInFile n, .productLookup code,
        .decodeJson, .writeResJson, .extractFields, .formatHtml, .removeFile n],
       fsRemove (fsSet (fsSet (fsSet fs n (.bytes [])) n (.bytes d)) "res.json"
         (.text (Json.obj entries).display)) n,
       .response (renderNutritionHtml (Json.obj entries)))
    ∧ (upload env fs fields).2.1 n = none := by
  have h := upload_success_run env fs fields n d code resp entries hloop hvp hbuild
    hdet hlook hjson hres
  refine ⟨h, ?_⟩
  rw [h]
  exact fsRemove_self _ _

/-- Witness for C1: a fully successful concrete run. -/
theorem upload_pipeline_order_witness :
    upload envOkW fsEmpty [fldPng] =
      ([.createFile "a.png", .writeFile "a.png" [1], .detectInFile "a.png",
        .productLookup "750", .decodeJson, .writeResJson, .extractFields, .formatHtml,
        .removeFile "a.png"],
       fsRemove (fsSet (fsSet (fsSet fsEmpty "a.png" (.bytes [])) "a.png" (.bytes [1]))
         "res.json" (.text (Json.obj .nil).display)) "a.png",
       .response (renderNutritionHtml (Json.obj .nil)))
    ∧ (upload envOkW fsEmpty [fldPng]).2.1 "a.png" = none :=
  upload_pipeline_order envOkW fsEmpty [fldPng] "a.png" [1] "750" 0 .nil
    (by decide) (by decide) rfl rfl rfl rfl (by decide)

/-- C2 counterexample: when the product-database lookup fails, the
handler does not recover with the generic error message — it panics
and returns no response at all. -/
theorem upload_lookup_failure_not_recovered :
    (upload envLookupFail fsEmpty [fldPng]).2.2 = .panicked ∧
    (upload envLookupFail fsEmpty [fldPng]).2.2 ≠ .response genericErrorMsg := by
  exact ⟨by decide, by decide⟩

/-- C2 as amended: a failure of barcode detection or of JSON decoding
is recovered by returning the generic error message, but a failure of
the product-database lookup is not recovered — the handler panics and
produces no response. -/
theorem upload_failure_recovery (env : Env) (fs : FS) (fields : List Field)
    (n : String) (d : List Nat)
    (hloop : uploadLoop fields "" [] = .done n d)
    (hvp : env.validPath n = true)
    (hbuild : env.buildOk = true) :
    (env.detect d = .error () → (upload env fs fields).2.2 = .response genericErrorMsg)
    ∧ (∀ code resp, env.detect d = .ok code → env.lookup code = .ok resp →
        env.respJson resp = .error () →
        (upload env fs fields).2.2 = .response genericErrorMsg)
    ∧ (∀ code, env.detect d = .ok code → env.lookup code = .error () →
        (upload env fs fields).2.2 = .panicked) := by
  refine ⟨fun hdet => ?_, fun code resp hdet hlook hjson => ?_,
    fun code hdet hlook => ?_⟩
  · rw [upload_detect_fail_run env fs fields n d hloop hvp hbuild hdet]
  · rw [upload_json_fail_run env fs fields n d code resp hloop hvp hbuild hdet hlook
      hjson]
  · rw [upload_lookup_fail_run env fs fields n d code hloop hvp hbuild hdet hlook]

/-- Witness for C2 as amended: a concrete barcode-detection failure
yields the generic error message. -/
theorem upload_failure_recovery_witness :
    (upload envDetectFail fsEmpty [fldPng]).2.2 = .response genericErrorMsg :=
  (upload_failure_recovery envDetectFail fsEmpty [fldPng] "a.png" [1]
    (by decide) (by decide) rfl).1 rfl

/-- C3 counterexample: a successful run leaves `res.json` on disk —
a file created during the request's processing, distinct from the temp
file, that remains after the response is produced. -/
theorem upload_res_json_persists :
    (upload envOkW fsEmpty [fldPng]).2.2 = .response (renderNutritionHtml (Json.obj .nil))
    ∧ (upload envOkW fsEmpty [fldPng]).2.1 "res.json" =
        some (.text (Json.obj .nil).display)
    ∧ fsEmpty "res.json" = none
    ∧ ("res.json" : String) ≠ "a.png" := by
  exact ⟨by decide, by decide, rfl, by decide⟩

/-- C3 as amended: after a successful response the temp file is deleted
and no other file changes — except `res.json`, which persists the
looked-up JSON document on disk. -/
theorem upload_persistence_frame (env : Env) (fs : FS) (fields : List Field)
    (n : String) (d : List Nat) (code : String) (resp : Nat) (entries : JsonObj)
    (hloop : uploadLoop fields "" [] = .done n d)
    (hvp : env.validPath n = true)
    (hbuild : env.buildOk = true)
    (hdet : env.detect d = .ok code)
    (hlook : env.lookup code = .ok resp)
    (hjson : env.respJson resp = .ok entries)
    (hres : env.validPath "res.json" = true)
    (hne : n ≠ "res.json") :
    (upload env fs fields).2.2 = .response (renderNutritionHtml (Json.obj entries))
    ∧ (upload env fs fields).2.1 n = none
    ∧ (upload env fs fields).2.1 "res.json" = some (.text (Json.obj entries).display)
    ∧ ∀ k, k ≠ n → k ≠ "res.json" → (upload env fs fields).2.1 k = fs k := by
  have h := upload_success_run env fs fields n d code resp entries hloop hvp hbuild
    hdet hlook hjson hres
  rw [h]
  refine ⟨rfl, fsRemove_self _ _, ?_, ?_⟩
  · exact (fsRemove_other _ _ _ (Ne.symm hne)).trans (fsSet_self _ _ _)
  · intro k hk1 hk2
    exact (fsRemove_other _ _ _ hk1).trans ((fsSet_other _ _ _ _ hk2).trans
      ((fsSet_other _ _ _ _ hk1).trans (fsSet_other _ _ _ _ hk1)))

/-- Witness for C3 as amended: the concrete successful run. -/
theorem upload_persistence_frame_witness :
    (upload envOkW fsEmpty [fldPng]).2.2 = .response (renderNutritionHtml (Json.obj .nil))
    ∧ (upload envOkW fsEmpty [fldPng]).2.1 "a.png" = none
    ∧ (upload envOkW fsEmpty [fldPng]).2.1 "res.json" =
        some (.text (Json.obj .nil).display)
    ∧ ∀ k, k ≠ "a.png" → k ≠ "res.json" →
        (upload envOkW fsEmpty [fldPng]).2.1 k = fsEmpty k :=
  upload_persistence_frame envOkW fsEmpty [fldPng] "a.png" [1] "750" 0 .nil
    (by decide) (by decide) rfl rfl rfl rfl (by decide) (by decide)

/-- C4: there is a failure path — the product-database lookup failing
under its early `unwrap` — on which the temp-file removal step is
skipped and the persisted upload remains on disk. -/
theorem upload_panic_skips_cleanup :
    (upload envLookupFail fsEmpty [fldPng]).2.2 = .panicked
    ∧ (upload envLookupFail fsEmpty [fldPng]).2.1 "a.png" = some (.bytes [1])
    ∧ Event.removeFile "a.png" ∉ (upload envLookupFail fsEmpty [fldPng]).1 := by
  exact ⟨by decide, by decide, by decide⟩

/-- C5 counterexample: the pipeline does not extract five fields from
the product JSON — it extracts six (on a concrete successful lookup the
returned string interpolates the six `nutritionPaths` extractions). -/
theorem cnff_five_fields_false :
    (create_nutrional_facts_file envOkW (fsSet fsEmpty "a.png" (.bytes [1])) "a.png").2.2
      = .ok (renderNutritionHtml (Json.obj .nil))
    ∧ nutritionPaths.length ≠ 5 := by
  exact ⟨by decide, by decide⟩

/-- C5 as amended: on a successful lookup the pipeline extracts exactly
six fields of the JSON document (image URL, serving size, and four
nutriment values, the paths listed in `nutritionPaths`) and
interpolates them into the fixed HTML template, returning that
string. -/
theorem cnff_extracts_six_fields (env : Env) (fs : FS) (n : String) (b : List Nat)
    (code : String) (resp : Nat) (entries : JsonObj)
    (hbuild : env.buildOk = true)
    (hfile : fs n = some (.bytes b))
    (hdet : env.detect b = .ok code)
    (hlook : env.lookup code = .ok resp)
    (hjson : env.respJson resp = .ok entries)
    (hres : env.validPath "res.json" = true) :
    (create_nutrional_facts_file env fs n).2.2 =
      .ok (renderNutritionHtml (Json.obj entries))
    ∧ nutritionPaths.length = 6 := by
  refine ⟨?_, rfl⟩
  simp [create_nutrional_facts_file, hbuild, hfile, hdet, hlook, hjson, hres,
    renderNutritionHtml, Json.atPath]

/-- Witness for C5 as amended: a concrete successful lookup. -/
theorem cnff_extracts_six_fields_witness :
    (create_nutrional_facts_file envOkW (fsSet fsEmpty "a.png" (.bytes [1])) "a.png").2.2
      = .ok (renderNutritionHtml (Json.obj .nil))
    ∧ nutritionPaths.length = 6 :=
  cnff_extracts_six_fields envOkW (fsSet fsEmpty "a.png" (.bytes [1])) "a.png" [1]
    "750" 0 .nil rfl (by decide) rfl rfl rfl (by decide)

/-- C6: the decoded barcode text is passed unchanged to the
product-database lookup — the lookup events of a run are exactly those
with the decoded text. -/
theorem lookup_receives_decoded_text (env : Env) (fs : FS) (n : String)
    (b : List Nat) (t : String)
    (hbuild : env.buildOk = true)
    (hfile : fs n = some (.bytes b))
    (hdet : env.detect b = .ok t) :
    ∀ u, Event.productLookup u ∈ (create_nutrional_facts_file env fs n).1 ↔ u = t := by
  intro u
  cases hlook : env.lookup t with
  | error e =>
      simp [create_nutrional_facts_file, hbuild, hfile, hdet, hlook]
  | ok resp =>
      cases hjson : env.respJson resp with
      | error e =>
          simp [create_nutrional_facts_file, hbuild, hfile, hdet, hlook, hjson]
      | ok entries =>
          by_cases hres : env.validPath "res.json" = true
          · simp [create_nutrional_facts_file, hbuild, hfile, hdet, hlook, hjson, hres]
          · have hres' : env.validPath "res.json" = false := by simpa using hres
            simp [create_nutrional_facts_file, hbuild, hfile, hdet, hlook, hjson, hres']

/-- Witness for C6: in the concrete successful run the lookup is called
with the decoded text `"750"`. -/
theorem lookup_receives_decoded_text_witness :
    Event.productLookup "750" ∈
      (create_nutrional_facts_file envOkW (fsSet fsEmpty "a.png" (.bytes [1])) "a.png").1 :=
  (lookup_receives_decoded_text envOkW (fsSet fsEmpty "a.png" (.bytes [1])) "a.png"
    [1] "750" rfl (by decide) rfl "750").mpr rfl

/-- C7: for an accepted upload, the handler writes to the temp file
exactly the bytes of the (last) uploaded multipart image field, and no
other write of upload bytes happens during the request. -/
theorem upload_writes_exact_bytes (env : Env) (fs : FS) (gs : List Field) (g : Field)
    (nm : String)
    (hall : ∀ x ∈ gs ++ [g], isImageField x = true)
    (hg : g.file_name = some nm)
    (hvp : env.validPath nm = true) :
    (upload env fs (gs ++ [g])).1.take 2 = [.createFile nm, .writeFile nm g.data]
    ∧ ∀ m bs, Event.writeFile m bs ∈ (upload env fs (gs ++ [g])).1 →
        m = nm ∧ bs = g.data := by
  have hloop := uploadLoop_all_images gs g "" [] nm hall hg
  have hnw := fun m bs => cnff_no_writeFile env
    (fsSet (fsSet fs nm (.bytes [])) nm (.bytes g.data)) nm m bs
  simp only [upload, hloop, hvp]
  simp only [Bool.true_eq_false, if_false]
  rcases h1 : unwrapOrElse (create_nutrional_facts_file env
      (fsSet (fsSet fs nm (.bytes [])) nm (.bytes g.data)) nm).2.2 with _ | s
  · constructor
    · simp
    · intro m bs hmem
      simp only [List.cons_append, List.nil_append, List.mem_cons] at hmem
      rcases hmem with h | h | h
      · exact absurd h (by simp)
      · exact ⟨by injection h, by injection h⟩
      · exact absurd h (hnw m bs)
  · rcases h2 : (create_nutrional_facts_file env
        (fsSet (fsSet fs nm (.bytes [])) nm (.bytes g.data)) nm).2.1 nm with _ | fd
    · constructor
      · simp
      · intro m bs hmem
        simp only [List.cons_append, List.nil_append, List.mem_cons] at hmem
        rcases hmem with h | h | h
        · exact absurd h (by simp)
        · exact ⟨by injection h, by injection h⟩
        · exact absurd h (hnw m bs)
    · constructor
      · simp
      · intro m bs hmem
        simp only [List.append_assoc, List.cons_append, List.nil_append,
          List.mem_cons, List.mem_append] at hmem
        rcases hmem with h | h | h
        · exact absurd h (by simp)
        · exact ⟨by injection h, by injection h⟩
        · rcases h with h | h
          · exact absurd h (hnw m bs)
          · simp at h

/-- Witness for C7: the concrete two-field upload writes exactly the
last field's bytes. -/
theorem upload_writes_exact_bytes_witness :
    (upload envOkW fsEmpty ([fldPng] ++ [fldPng2])).1.take 2 =
      [.createFile "b.png", .writeFile "b.png" [9, 9]]
    ∧ ∀ m bs, Event.writeFile m bs ∈ (upload envOkW fsEmpty ([fldPng] ++ [fldPng2])).1 →
        m = "b.png" ∧ bs = [9, 9] :=
  upload_writes_exact_bytes envOkW fsEmpty [fldPng] fldPng2 "b.png"
    (by decide) rfl (by decide)

/-- C8 counterexample: a multipart upload that does contain a field
with a non-image content type, yet the handler panics instead of
returning the images-only fragment, because an earlier field lacks a
content type and the loop's `.unwrap()` panics first. -/
theorem upload_non_image_claim_false :
    nonImageField fldText = true
    ∧ (upload envOkW fsEmpty [fldNoCt, fldText]).2.2 = .panicked
    ∧ (upload envOkW fsEmpty [fldNoCt, fldText]).2.2 ≠ .response imagesOnlyMsg := by
  exact ⟨by decide, by decide, by decide⟩

/-- C8 as amended: provided every field of the multipart body carries a
file name and a content type, the presence of any field whose content
type does not start with `image/` makes the handler return the
images-only fragment, with no file created or written and no pipeline
step run. -/
theorem upload_non_image_early (env : Env) (fs : FS) (fields : List Field)
    (hwf : ∀ x ∈ fields, hasNameAndType x = true)
    (hbad : ∃ x ∈ fields, nonImageField x = true) :
    upload env fs fields = ([], fs, .response imagesOnlyMsg) := by
  simp [upload, uploadLoop_early fields "" [] hwf hbad]

/-- Witness for C8 as amended: a single text field is rejected with the
fragment and an unchanged filesystem. -/
theorem upload_non_image_early_witness :
    upload envOkW fsEmpty [fldText] = ([], fsEmpty, .response imagesOnlyMsg) :=
  upload_non_image_early envOkW fsEmpty [fldText] (by decide) (by decide)

/-- C9: the file the server creates for an accepted upload is at
exactly the client-supplied multipart file name, and with several
fields the name and data used are those of the last field, earlier
fields being discarded. -/
theorem upload_uses_last_field_name (env : Env) (fs : FS) (gs : List Field) (g : Field)
    (nm : String)
    (hall : ∀ x ∈ gs ++ [g], isImageField x = true)
    (hg : g.file_name = some nm) :
    uploadLoop (gs ++ [g]) "" [] = .done nm g.data
    ∧ (upload env fs (gs ++ [g])).1.head? = some (.createFile nm) := by
  have hloop := uploadLoop_all_images gs g "" [] nm hall hg
  refine ⟨hloop, ?_⟩
  by_cases hvp : env.validPath nm = true
  · simp only [upload, hloop, hvp]
    simp only [Bool.true_eq_false, if_false]
    rcases h1 : unwrapOrElse (create_nutrional_facts_file env
        (fsSet (fsSet fs nm (.bytes [])) nm (.bytes g.data)) nm).2.2 with _ | s
    · simp
    · rcases h2 : (create_nutrional_facts_file env
          (fsSet (fsSet fs nm (.bytes [])) nm (.bytes g.data)) nm).2.1 nm with _ | fd
      · simp
      · simp
  · have hvp' : env.validPath nm = false := by simpa using hvp
    simp [upload, hloop, hvp']

/-- Witness for C9: with two image fields the created file carries the
second field's name and the loop keeps the second field's data. -/
theorem upload_uses_last_field_name_witness :
    uploadLoop ([fldPng] ++ [fldPng2]) "" [] = .done "b.png" [9, 9]
    ∧ (upload envOkW fsEmpty ([fldPng] ++ [fldPng2])).1.head? =
        some (.createFile "b.png") :=
  upload_uses_last_field_name envOkW fsEmpty [fldPng] fldPng2 "b.png" (by decide) rfl

/-- C10: on a multipart upload with zero fields the handler reaches
file creation with the empty file name; creating a file at the empty
path fails, so the `.unwrap()` panics and no response is returned. -/
theorem upload_empty_multipart_panics (env : Env) (fs : FS)
    (h : env.validPath "" = false) :
    upload env fs [] = ([.createFile ""], fs, .panicked) := by
  simp [upload, uploadLoop, h]

/-- Witness for C10: the concrete environment rejects the empty path,
and the empty upload panics at file creation. -/
theorem upload_empty_multipart_panics_witness :
    upload envOkW fsEmpty [] = ([.createFile ""], fsEmpty, .panicked) :=
  upload_empty_multipart_panics envOkW fsEmpty (by decide)

end Panafit
